import Mathlib

/-!
Shallow embedding of the streaming conversation client of the rag-pipeline
repository: the embeddable widget (widget script, `sendMessage` and friends)
and the authenticated SPA (`src/frontend/src/lib/api/client.ts` and the chat
page `sendMessage`).  Strings are modelled as `List Char`; a text chunk
delivered by one `reader.read()` is one `List Char`.
-/

namespace Rag

/-- JS whitespace test restricted to the characters relevant here
(space, tab, newline, carriage return), as used by `String.prototype.trim`. -/
def isWs (c : Char) : Bool :=
  c = ' ' || c = '\t' || c = '\n' || c = '\r'

/-- Model of JS `s.trim()`: strip leading and trailing whitespace. -/
def jsTrim (l : List Char) : List Char :=
  ((l.dropWhile isWs).reverse.dropWhile isWs).reverse

/-- Model of JS `s.startsWith(p)` over char lists (pattern first). -/
def startsWithChars : List Char → List Char → Bool
  | [], _ => true
  | _ :: _, [] => false
  | p :: ps, c :: cs => p = c && startsWithChars ps cs

/-- Model of JS `chunk.split('\n')`: `"a\nb"` gives `["a","b"]`,
a trailing newline gives a trailing empty segment, `""` gives `[""]`. -/
def splitLines : List Char → List (List Char)
  | [] => [[]]
  | c :: cs =>
    if c = '\n' then [] :: splitLines cs
    else
      match splitLines cs with
      | [] => [[c]]
      | l :: ls => (c :: l) :: ls

/-- The frame field marker `"data:"` checked by the widget. -/
def dataColon : List Char := ("data:").data

/-- The frame field marker `"data: "` (with mandatory space) checked by the SPA. -/
def dataColonSp : List Char := ("data: ").data

/-- The end-of-stream sentinel payload. -/
def doneTok : List Char := ("[DONE]").data

/-! ### Widget stream loop (widget script, sendMessage read loop)

For each chunk: `lines = chunk.split('\n')`; for each line:
`line = lines[i].trim()`; skip unless `line.startsWith('data:')`;
`data = line.substring(5).trim()`; `if (data === '[DONE]') break;`
else `assistantContent += data`.  The `break` exits only the inner
for-loop; the outer while-loop keeps reading further chunks. -/

/-- Fragments produced from one chunk's line list by the widget loop. -/
def widgetChunkFrags : List (List Char) → List (List Char)
  | [] => []
  | line :: rest =>
    let l := jsTrim line
    if startsWithChars dataColon l then
      let d := jsTrim (l.drop 5)
      if d = doneTok then []
      else d :: widgetChunkFrags rest
    else widgetChunkFrags rest

/-- All fragments appended to `assistantContent` by the widget read loop,
in arrival order, over a list of decoded chunks.  No carry-over buffer is
kept between chunks, and the sentinel stops only the current chunk. -/
def widgetFragments (chunks : List (List Char)) : List (List Char) :=
  (chunks.map (fun c => widgetChunkFrags (splitLines c))).flatten

/-- The final `assistantContent` of the widget after the read loop. -/
def widgetContent (chunks : List (List Char)) : List Char :=
  (widgetFragments chunks).flatten

/-! ### SPA stream generator (client.ts, api.stream)

For each chunk: `lines = chunk.split('\n')`; for each line:
only `line.startsWith('data: ')` matches; `data = line.slice(6)`
(untrimmed); `if (data === '[DONE]') return;` else `yield data`.
The `return` ends the whole generator. -/

/-- Fragments yielded from one chunk's line list by api.stream, with a flag
telling whether the sentinel ended the generator inside this chunk. -/
def sseChunkStep : List (List Char) → List (List Char) × Bool
  | [] => ([], false)
  | line :: rest =>
    if startsWithChars dataColonSp line then
      let d := line.drop 6
      if d = doneTok then ([], true)
      else
        let p := sseChunkStep rest
        (d :: p.1, p.2)
    else sseChunkStep rest

/-- All fragments yielded by api.stream over a list of decoded chunks. -/
def sseFragments : List (List Char) → List (List Char)
  | [] => []
  | c :: cs =>
    let p := sseChunkStep (splitLines c)
    if p.2 then p.1 else p.1 ++ sseFragments cs

/-- Concatenation, in arrival order, of all fragments api.stream yields. -/
def sseContent (chunks : List (List Char)) : List Char :=
  (sseFragments chunks).flatten

/-! ### Transcript entries -/

/-- Role of a transcript entry.  `system` models the widget's
`showSystemMessage` notices (rendered, never pushed to the `messages` array). -/
inductive Role : Type
  | user
  | assistant
  | system
deriving DecidableEq

/-- One transcript entry. -/
structure Msg : Type where
  role : Role
  content : List Char
deriving DecidableEq

/-- The widget's rate-limit notice text. -/
def limitNotice : List Char := ("Message limit reached for this session.").data

/-- The widget's connectivity-error notice text. -/
def connErrNotice : List Char := ("Connection error. Please try again.").data

/-- The widget's generic-failure notice text. -/
def wrongNotice : List Char := ("Something went wrong. Please try again.").data

/-! ### Widget sendMessage state machine (widget script)

State observed by the claims: the rendered transcript (`shown`, the DOM
message list including system notices), the `messages` array (`recorded`),
the loading and rate-limited flags, the enabled state of the input controls,
the cached conversation id and a count of conversation-creation POSTs. -/

/-- The widget's module-level state relevant to sendMessage. -/
structure WState : Type where
  shown : List Msg
  recorded : List Msg
  isLoading : Bool
  isRateLimited : Bool
  inputEnabled : Bool
  conv : Option (List Char)
  convCalls : Nat
deriving DecidableEq

/-- Server outcome of the widget's conversation-creation POST.
`fail` covers both a thrown fetch and a non-ok response; either one throws
inside `ensureConversation` and lands in sendMessage's catch block. -/
inductive ConvResp : Type
  | fail
  | ok (id : List Char)
deriving DecidableEq

/-- Server outcome of the widget's message POST.  `netErr` is a thrown
fetch; `ok` carries the decoded stream chunks of a 2xx response;
`okThenErr` carries the chunks read before `reader.read()` throws. -/
inductive PostResp : Type
  | netErr
  | status429
  | httpErr
  | ok (chunks : List (List Char))
  | okThenErr (chunks : List (List Char))
deriving DecidableEq

/-- One turn's environment: the two server responses the widget may consume. -/
structure WEnv : Type where
  convResp : ConvResp
  post : PostResp
deriving DecidableEq

/-- Model of the widget's `ensureConversation`: a cached id is returned with
no network call; otherwise one POST is issued and, on success, the id is
stored via `setConversationId` before returning.  Result: the id (`none`
models the throw), the new cache, and the number of POSTs issued. -/
def ensureConversation (cache : Option (List Char)) (resp : ConvResp) :
    Option (List Char) × Option (List Char) × Nat :=
  match cache with
  | some id => (some id, some id, 0)
  | none =>
    match resp with
    | .ok id => (some id, some id, 1)
    | .fail => (none, none, 1)

/-- The part of the widget's sendMessage after a conversation id is in hand:
the message POST and, on 2xx, the stream read loop.  On 429 the function
returns from inside the try block, so `setInputEnabled(true)` is skipped and
`isLoading` stays true.  After a 2xx stream, the assistant bubble exists in
the DOM iff at least one fragment arrived, and the `messages` array gains an
assistant entry iff the accumulated content is non-empty. -/
def wAfterConv (s : WState) (post : PostResp) : WState :=
  match post with
  | .netErr =>
    { s with shown := s.shown ++ [Msg.mk .system connErrNotice],
             isLoading := false, inputEnabled := true }
  | .status429 =>
    { s with isRateLimited := true,
             shown := s.shown ++ [Msg.mk .system limitNotice],
             inputEnabled := false }
  | .httpErr =>
    { s with shown := s.shown ++ [Msg.mk .system wrongNotice],
             isLoading := false, inputEnabled := true }
  | .ok chunks =>
    let frags := widgetFragments chunks
    let content := frags.flatten
    let s1 := if frags = [] then s
              else { s with shown := s.shown ++ [Msg.mk .assistant content] }
    let s2 := if content = [] then s1
              else { s1 with recorded := s1.recorded ++ [Msg.mk .assistant content] }
    { s2 with isLoading := false, inputEnabled := true }
  | .okThenErr chunks =>
    let frags := widgetFragments chunks
    let s1 := if frags = [] then s
              else { s with shown := s.shown ++ [Msg.mk .assistant frags.flatten] }
    { s1 with shown := s1.shown ++ [Msg.mk .system connErrNotice],
              isLoading := false, inputEnabled := true }

/-- Model of the widget's `sendMessage`.  Guards: a loading or rate-limited
state returns at once, as does blank (trimmed) input.  Then the user message
is appended unconditionally and input is disabled, `ensureConversation` runs
(its throw is caught and shown as a connection error), and the message POST
outcome is handled by `wAfterConv`. -/
def wSend (s : WState) (raw : List Char) (env : WEnv) : WState :=
  if s.isLoading || s.isRateLimited then s
  else
    let text := jsTrim raw
    if text = [] then s
    else
      let s1 := { s with shown := s.shown ++ [Msg.mk .user text],
                         recorded := s.recorded ++ [Msg.mk .user text],
                         isLoading := true, inputEnabled := false }
      let e := ensureConversation s1.conv env.convResp
      let s2 := { s1 with conv := e.2.1, convCalls := s1.convCalls + e.2.2 }
      match e.1 with
      | none =>
        { s2 with shown := s2.shown ++ [Msg.mk .system connErrNotice],
                  isLoading := false, inputEnabled := true }
      | some _ => wAfterConv s2 env.post

/-! ### SPA transport (client.ts, request)

The response is modelled by its status, the `error` field of its JSON body
when the body parses to an object carrying one (`errBody`), its status text,
and its raw body text (`bodyText`, for the success branch). -/

/-- Model of `endpoint.startsWith("/api/auth/")`. -/
def isAuthEndpoint (endpoint : List Char) : Bool :=
  startsWithChars (("/api/auth/").data) endpoint

/-- Model of JS `response.ok`: status in the 2xx range. -/
def respOk (status : Nat) : Bool :=
  200 ≤ status && status < 300

/-- Side effects of the SPA request function on the failure path. -/
structure ReqEffects : Type where
  tokenCleared : Bool
  redirected : Bool
deriving DecidableEq

/-- Resolution of the SPA request function. -/
inductive ReqValue : Type
  | undef
  | parsed (bodyText : List Char)
  | thrown (message : List Char)
deriving DecidableEq

/-- Model of `request` in client.ts after a response arrived.  On a non-ok
response: when the status is 401 and the endpoint is not an auth endpoint,
the stored token is removed and a redirect to /login is issued; then the
function throws the body's `error` message when present, else the status
text.  On an ok response: 204 resolves `undefined`; an empty body resolves
`undefined`; otherwise the result is `JSON.parse` of the body text
(parsing is kept abstract: `parsed` carries the text handed to it). -/
def request (endpoint : List Char) (status : Nat) (errBody : Option (List Char))
    (statusText : List Char) (bodyText : List Char) : ReqEffects × ReqValue :=
  if respOk status then
    if status = 204 then (⟨false, false⟩, .undef)
    else if bodyText = [] then (⟨false, false⟩, .undef)
    else (⟨false, false⟩, .parsed bodyText)
  else
    let eff : ReqEffects :=
      if status = 401 && !isAuthEndpoint endpoint then ⟨true, true⟩
      else ⟨false, false⟩
    (eff, .thrown (errBody.getD statusText))

/-! ### SPA chat page sendMessage (chat page component)

The page keeps `messages`, `activeConversationId` and a `streaming` flag.
With no active conversation it first POSTs /api/conversations, returning
from the catch block on failure; then it appends the user message, appends
an empty assistant placeholder eagerly, and replaces the last element of
`messages` on every yielded fragment; a thrown stream error replaces the
placeholder's content with an error text. -/

/-- The chat page's state relevant to sendMessage. -/
structure SpaState : Type where
  messages : List Msg
  activeConv : Option (List Char)
  streaming : Bool
  convCalls : Nat
deriving DecidableEq

/-- The for-await body: on each fragment the accumulated assistant content
grows and `messages = [...messages.slice(0, -1), {...assistantMsg}]`. -/
def spaStreamLoop : List Msg → List Char → List (List Char) → List Msg × List Char
  | msgs, acc, [] => (msgs, acc)
  | msgs, acc, f :: fs =>
    spaStreamLoop (msgs.dropLast ++ [Msg.mk .assistant (acc ++ f)]) (acc ++ f) fs

/-- The chat page turn after a conversation id is in hand: append the user
message, append the empty assistant placeholder, consume the stream
(`frags`), and on a thrown error (`err`) replace the placeholder content
with `'Error: ' + message`.  The finally block clears `streaming`. -/
def spaTurn (s : SpaState) (text : List Char) (frags : List (List Char))
    (err : Option (List Char)) : SpaState :=
  let base := s.messages ++ [Msg.mk .user text, Msg.mk .assistant []]
  let run := spaStreamLoop base [] frags
  match err with
  | none => { s with messages := run.1, streaming := false }
  | some m =>
    { s with messages := run.1.dropLast ++ [Msg.mk .assistant (("Error: ").data ++ m)],
             streaming := false }

/-- Model of the chat page's `sendMessage`.  Guards: blank (trimmed) input or
an in-flight stream returns at once.  With no active conversation the
creation POST runs first and a failure returns from the catch block before
any message is appended.  The fragments consumed by the for-await loop are
exactly `sseFragments chunks`, the output of api.stream on the decoded
chunks; `err` models a throw out of api.stream (connect failure, non-ok
status, missing body or a mid-stream read failure). -/
def spaSend (s : SpaState) (input : List Char) (convResp : ConvResp)
    (chunks : List (List Char)) (err : Option (List Char)) : SpaState :=
  let text := jsTrim input
  if text = [] || s.streaming then s
  else
    match s.activeConv, convResp with
    | none, .fail => { s with convCalls := s.convCalls + 1 }
    | none, .ok cid =>
      spaTurn { s with activeConv := some cid, convCalls := s.convCalls + 1 }
        text (sseFragments chunks) err
    | some _, _ => spaTurn s text (sseFragments chunks) err

/-! ### Widget identity store (widget script, getSessionId) -/

/-- Model of the widget's `getSessionId` over the stored value for the
session key: a stored id is returned as is; an absent one is replaced by a
freshly generated uuid (`fresh`), persisted with `setItem` before returning.
Result: the returned id, the new stored value, and the number of writes. -/
def getSessionId (stored : Option (List Char)) (fresh : List Char) :
    List Char × Option (List Char) × Nat :=
  match stored with
  | some id => (id, some id, 0)
  | none => (fresh, some fresh, 1)

/-- Total number of conversation-creation POSTs issued by a sequence of
sequential `ensureConversation` calls, the cache threaded through. -/
def ensureSeq : Option (List Char) → List ConvResp → Nat
  | _, [] => 0
  | cache, r :: rs =>
    let e := ensureConversation cache r
    e.2.2 + ensureSeq e.2.1 rs

/-- Declarative per-line description of the widget loop (amended spec):
the line is trimmed first; a trimmed line starting with `data:` yields the
trimmed remainder after the 5-character marker, every other line yields
nothing. -/
def widgetLineFrag (line : List Char) : Option (List Char) :=
  if startsWithChars dataColon (jsTrim line)
  then some (jsTrim ((jsTrim line).drop 5))
  else none

/-- Declarative per-line description of api.stream (amended spec): a line
starting with `data: ` (mandatory single space) yields the raw remainder
after the 6-character marker, untrimmed; every other line yields nothing. -/
def sseLineFrag (line : List Char) : Option (List Char) :=
  if startsWithChars dataColonSp line
  then some (line.drop 6)
  else none

/-! ### Theorems -/

/-- With a cached id, a run of sequential ensureConversation calls issues no
creation POST at all. -/
theorem ensureSeq_some (id : List Char) (rs : List ConvResp) :
    ensureSeq (some id) rs = 0 := by
  induction rs with
  | nil => rfl
  | cons r rs ih => simp [ensureSeq, ensureConversation, ih]

/-- C1: the stream-reassembly round-trip fails when a read boundary falls
inside a framing line.  The server sends the payload `Hi` framed as
`data: Hi\n\ndata: [DONE]\n\n`; delivered in one chunk both reassemblers
recover `Hi`, but delivered split in the middle of the framing line
(`da` + `ta: Hi\n\ndata: [DONE]\n\n`) neither reassembler keeps a carry-over
buffer, so both yield nothing and the concatenation of fragments is empty,
not `Hi`. -/
theorem C1_chunk_split_loses_data :
    widgetContent [("data: Hi\n\ndata: [DONE]\n\n").data] = ("Hi").data ∧
    sseContent [("data: Hi\n\ndata: [DONE]\n\n").data] = ("Hi").data ∧
    widgetContent [("da").data, ("ta: Hi\n\ndata: [DONE]\n\n").data] = [] ∧
    sseContent [("da").data, ("ta: Hi\n\ndata: [DONE]\n\n").data] = [] := by
  decide

/-- C2: sentinel termination fails in the widget: its `[DONE]` check only
breaks the per-chunk for-loop, so a `data:` record arriving in a chunk after
the one holding the sentinel is still yielded (`X` here), while api.stream's
`return` correctly ends the whole generator and yields nothing. -/
theorem C2_widget_yields_after_sentinel :
    widgetFragments [("data: [DONE]\n").data, ("data: X\n").data]
      = [("X").data] ∧
    sseFragments [("data: [DONE]\n").data, ("data: X\n").data] = [] := by
  decide

/-- C9: session-id retrieval is idempotent: a second call returns the value
the first call returned and performs no storage write, for every prior
stored state and every pair of freshly generated identifiers. -/
theorem C9_identity_idempotent (stored : Option (List Char))
    (fresh fresh2 : List Char) :
    (getSessionId (getSessionId stored fresh).2.1 fresh2).1
      = (getSessionId stored fresh).1 ∧
    (getSessionId (getSessionId stored fresh).2.1 fresh2).2.2 = 0 := by
  cases stored <;> simp [getSessionId]

/-- C10: for every successful (2xx) response the SPA request function
resolves `undefined` whenever the body text is empty — whatever the status,
not only 204 — and resolves with the JSON-parsed body for every non-204
success with a non-empty body (a 204 never carries a body, and its branch
returns before the body is read); no credential erasure or redirect happens
on a success. -/
theorem C10_empty_body_resolves_undefined (endpoint : List Char) (status : Nat)
    (errBody : Option (List Char)) (statusText bodyText : List Char)
    (hok : respOk status = true) :
    (request endpoint status errBody statusText []).2 = ReqValue.undef ∧
    (status ≠ 204 → bodyText ≠ [] →
      (request endpoint status errBody statusText bodyText).2
        = ReqValue.parsed bodyText) ∧
    (request endpoint status errBody statusText bodyText).1
      = ReqEffects.mk false false := by
  refine ⟨?_, ?_, ?_⟩
  · simp [request, hok]
  · intro h204 hbody
    simp [request, hok, h204, hbody]
  · by_cases h204 : status = 204
    · subst h204
      simp [request, hok]
    · by_cases hb : bodyText = [] <;> simp [request, hok, h204, hb]

/-- C7: a 401 from a non-auth endpoint clears the stored credential and
signals the redirect to login; a 401 from an auth endpoint itself does
neither; in both cases the call throws the error message of the response
body when present, else the status text. -/
theorem C7_auth_expiry (endpoint : List Char) (errBody : Option (List Char))
    (statusText bodyText em : List Char) :
    (isAuthEndpoint endpoint = false →
      request endpoint 401 errBody statusText bodyText
        = (ReqEffects.mk true true, ReqValue.thrown (errBody.getD statusText))) ∧
    (isAuthEndpoint endpoint = true →
      request endpoint 401 errBody statusText bodyText
        = (ReqEffects.mk false false,
            ReqValue.thrown (errBody.getD statusText))) ∧
    (request endpoint 401 (some em) statusText bodyText).2
      = ReqValue.thrown em ∧
    (request endpoint 401 none statusText bodyText).2
      = ReqValue.thrown statusText := by
  refine ⟨?_, ?_, ?_, ?_⟩
  · intro h
    simp [request, respOk, h]
  · intro h
    simp [request, respOk, h]
  · simp [request, respOk]
  · simp [request, respOk]

/-- C5: conversation lifecycle: a cached id is returned at once with no
creation POST; with an empty cache a successful creation issues exactly one
POST and the id is cached before returning; and over every sequence of
sequential ensureConversation calls whose creation requests succeed, at most
one creation POST is ever issued. -/
theorem C5_conversation_lifecycle (id : List Char) (resp : ConvResp)
    (cache : Option (List Char)) (resps : List ConvResp)
    (hok : ∀ r ∈ resps, r ≠ ConvResp.fail) :
    ensureConversation (some id) resp = (some id, some id, 0) ∧
    ensureConversation none (ConvResp.ok id) = (some id, some id, 1) ∧
    ensureSeq cache resps ≤ 1 := by
  refine ⟨rfl, rfl, ?_⟩
  cases cache with
  | some id' => simp [ensureSeq_some]
  | none =>
    cases resps with
    | nil => simp [ensureSeq]
    | cons r rs =>
      cases r with
      | fail => exact absurd rfl (hok _ (List.mem_cons_self _ _))
      | ok id' => simp [ensureSeq, ensureConversation, ensureSeq_some]

/-- When the message POST succeeds but the stream yields no fragment, the
widget's turn adds no assistant entry: the `messages` array either stays as
it was or gains only the user entry, and the DOM gains at most the user
entry and a system notice. -/
theorem wSend_ok_nil_no_assistant (s : WState) (raw : List Char) (env : WEnv)
    (chunks : List (List Char)) (hpost : env.post = PostResp.ok chunks)
    (hfr : widgetFragments chunks = []) :
    ((wSend s raw env).recorded = s.recorded ∨
      (wSend s raw env).recorded
        = s.recorded ++ [Msg.mk Role.user (jsTrim raw)]) ∧
    ((wSend s raw env).shown = s.shown ∨
      (wSend s raw env).shown = s.shown ++ [Msg.mk Role.user (jsTrim raw)] ∨
      (wSend s raw env).shown
        = s.shown ++ [Msg.mk Role.user (jsTrim raw),
                      Msg.mk Role.system connErrNotice]) := by
  by_cases hg : (s.isLoading || s.isRateLimited) = true
  · simp [wSend, hg]
  · by_cases htext : jsTrim raw = []
    · simp [wSend, hg, htext]
    · rcases hs : s.conv with _ | id
      · rcases hc : env.convResp with _ | cid
        · constructor
          · right
            simp [wSend, wAfterConv, ensureConversation, hg, htext, hs, hc]
          · right; right
            simp [wSend, wAfterConv, ensureConversation, hg, htext, hs, hc]
        · constructor
          · right
            simp [wSend, wAfterConv, ensureConversation, hg, htext, hs, hc,
                  hpost, hfr]
          · right; left
            simp [wSend, wAfterConv, ensureConversation, hg, htext, hs, hc,
                  hpost, hfr]
      · constructor
        · right
          simp [wSend, wAfterConv, ensureConversation, hg, htext, hs, hpost, hfr]
        · right; left
          simp [wSend, wAfterConv, ensureConversation, hg, htext, hs, hpost, hfr]

/-- C3 counterexample: in the SPA chat page a stream that closes with zero
fragments leaves an empty assistant Message in the transcript, because the
placeholder is appended eagerly before the first fragment: sending `Hi`
with an active conversation and a stream that closes at once ends with
messages `[user Hi, assistant ""]`, not `[user Hi]`. -/
theorem C3_counterexample :
    (spaSend (SpaState.mk [] (some (("c1").data)) false 0) (("Hi").data)
        (ConvResp.ok (("c1").data)) [] none).messages
      = [Msg.mk Role.user (("Hi").data), Msg.mk Role.assistant []] := by
  decide

/-- C3 (amended): in the widget a turn whose stream yields zero fragments
appends no assistant Message — neither to the rendered transcript nor to the
`messages` array; in the SPA chat page the assistant placeholder is created
eagerly before the first fragment, so such a turn leaves an empty assistant
Message appended after the user Message. -/
theorem C3_zero_fragment_boundary (s : WState) (raw : List Char) (env : WEnv)
    (chunks : List (List Char)) (hpost : env.post = PostResp.ok chunks)
    (hfr : widgetFragments chunks = [])
    (sp : SpaState) (input : List Char) (cid : List Char) (cr : ConvResp)
    (chunks2 : List (List Char))
    (hact : sp.activeConv = some cid) (hstr : sp.streaming = false)
    (hti : jsTrim input ≠ []) (hfr2 : sseFragments chunks2 = []) :
    (∀ m ∈ (wSend s raw env).recorded, m ∈ s.recorded ∨ m.role = Role.user) ∧
    (∀ m ∈ (wSend s raw env).shown, m ∈ s.shown ∨ m.role ≠ Role.assistant) ∧
    (spaSend sp input cr chunks2 none).messages
      = sp.messages
          ++ [Msg.mk Role.user (jsTrim input), Msg.mk Role.assistant []] := by
  obtain ⟨hrec, hshow⟩ := wSend_ok_nil_no_assistant s raw env chunks hpost hfr
  refine ⟨?_, ?_, ?_⟩
  · intro m hm
    rcases hrec with h | h <;> rw [h] at hm
    · exact Or.inl hm
    · rcases List.mem_append.mp hm with h' | h'
      · exact Or.inl h'
      · simp at h'
        subst h'
        exact Or.inr rfl
  · intro m hm
    rcases hshow with h | h | h <;> rw [h] at hm
    · exact Or.inl hm
    · rcases List.mem_append.mp hm with h' | h'
      · exact Or.inl h'
      · simp at h'
        subst h'
        exact Or.inr (by simp)
    · rcases List.mem_append.mp hm with h' | h'
      · exact Or.inl h'
      · rcases List.mem_cons.mp h' with h'' | h''
        · subst h''
          exact Or.inr (by simp)
        · simp at h''
          subst h''
          exact Or.inr (by simp)
  · simp [spaSend, spaTurn, spaStreamLoop, hact, hstr, hti, hfr2]

/-- Witness for C3 at concrete states: an idle widget turn whose 2xx stream
closes with no record, and an SPA turn with an active conversation whose
stream closes with no record. -/
theorem C3_zero_fragment_boundary_witness :
    widgetFragments [] = [] ∧ jsTrim (("Hi").data) ≠ [] ∧
    sseFragments [] = [] ∧
    ((∀ m ∈ (wSend (WState.mk [] [] false false true (some (("c1").data)) 0)
          (("Hi").data) (WEnv.mk ConvResp.fail (PostResp.ok []))).recorded,
        m ∈ ([] : List Msg) ∨ m.role = Role.user) ∧
      (∀ m ∈ (wSend (WState.mk [] [] false false true (some (("c1").data)) 0)
          (("Hi").data) (WEnv.mk ConvResp.fail (PostResp.ok []))).shown,
        m ∈ ([] : List Msg) ∨ m.role ≠ Role.assistant) ∧
      (spaSend (SpaState.mk [] (some (("c2").data)) false 0) (("Hi").data)
          ConvResp.fail [] none).messages
        = [] ++ [Msg.mk Role.user (jsTrim (("Hi").data)),
                 Msg.mk Role.assistant []]) :=
  ⟨rfl, by decide, rfl,
    C3_zero_fragment_boundary (WState.mk [] [] false false true (some (("c1").data)) 0)
      (("Hi").data) (WEnv.mk ConvResp.fail (PostResp.ok [])) [] rfl rfl
      (SpaState.mk [] (some (("c2").data)) false 0) (("Hi").data)
      (("c2").data) ConvResp.fail [] rfl rfl (by decide) rfl⟩

/-- A rate-limited widget returns from sendMessage at once: the state is
unchanged, so nothing is appended and no network call is issued. -/
theorem wSend_of_rateLimited (s : WState) (raw : List Char) (env : WEnv)
    (h : s.isRateLimited = true) : wSend s raw env = s := by
  simp [wSend, h]

/-- Closed form of a widget turn whose message POST returns 429. -/
theorem wSend_429 (s : WState) (raw : List Char) (env : WEnv)
    (hL : s.isLoading = false) (hR : s.isRateLimited = false)
    (ht : jsTrim raw ≠ []) (hpost : env.post = PostResp.status429)
    (hconv : s.conv.isSome = true ∨ env.convResp ≠ ConvResp.fail) :
    wSend s raw env =
      { shown := s.shown
          ++ [Msg.mk Role.user (jsTrim raw), Msg.mk Role.system limitNotice],
        recorded := s.recorded ++ [Msg.mk Role.user (jsTrim raw)],
        isLoading := true, isRateLimited := true, inputEnabled := false,
        conv := (ensureConversation s.conv env.convResp).2.1,
        convCalls := s.convCalls
          + (ensureConversation s.conv env.convResp).2.2 } := by
  rcases hs : s.conv with _ | id
  · rcases hc : env.convResp with _ | cid
    · rcases hconv with h | h
      · rw [hs] at h
        simp at h
      · exact absurd hc h
    · simp [wSend, wAfterConv, ensureConversation, hL, hR, ht, hpost, hs, hc]
  · simp [wSend, wAfterConv, ensureConversation, hL, hR, ht, hpost, hs]

/-- C6: a 429 on the message POST makes the widget rate-limited: the
`messages` array gains only the user entry (no assistant), the sticky
system notice is shown, input stays disabled, and the flag is terminal —
every later send attempt leaves the whole state unchanged (so nothing is
appended and no network request of any kind is issued). -/
theorem C6_sticky_rate_limit (s : WState) (raw : List Char) (env : WEnv)
    (hL : s.isLoading = false) (hR : s.isRateLimited = false)
    (ht : jsTrim raw ≠ []) (hpost : env.post = PostResp.status429)
    (hconv : s.conv.isSome = true ∨ env.convResp ≠ ConvResp.fail) :
    (wSend s raw env).isRateLimited = true ∧
    (wSend s raw env).recorded = s.recorded ++ [Msg.mk Role.user (jsTrim raw)] ∧
    (wSend s raw env).shown
      = s.shown ++ [Msg.mk Role.user (jsTrim raw), Msg.mk Role.system limitNotice] ∧
    (wSend s raw env).inputEnabled = false ∧
    ∀ raw2 env2, wSend (wSend s raw env) raw2 env2 = wSend s raw env := by
  rw [wSend_429 s raw env hL hR ht hpost hconv]
  refine ⟨rfl, rfl, rfl, rfl, fun raw2 env2 => ?_⟩
  exact wSend_of_rateLimited _ raw2 env2 rfl

/-- Witness for C6: a concrete idle widget state with a cached conversation
id whose message POST returns 429. -/
theorem C6_sticky_rate_limit_witness :
    jsTrim (("Hello").data) ≠ [] ∧
    ((wSend (WState.mk [] [] false false true (some (("c1").data)) 0)
          (("Hello").data)
          (WEnv.mk (ConvResp.ok (("c9").data)) PostResp.status429)).isRateLimited
        = true ∧
      (wSend (WState.mk [] [] false false true (some (("c1").data)) 0)
          (("Hello").data)
          (WEnv.mk (ConvResp.ok (("c9").data)) PostResp.status429)).recorded
        = [] ++ [Msg.mk Role.user (jsTrim (("Hello").data))] ∧
      (wSend (WState.mk [] [] false false true (some (("c1").data)) 0)
          (("Hello").data)
          (WEnv.mk (ConvResp.ok (("c9").data)) PostResp.status429)).shown
        = [] ++ [Msg.mk Role.user (jsTrim (("Hello").data)),
                 Msg.mk Role.system limitNotice] ∧
      (wSend (WState.mk [] [] false false true (some (("c1").data)) 0)
          (("Hello").data)
          (WEnv.mk (ConvResp.ok (("c9").data)) PostResp.status429)).inputEnabled
        = false ∧
      ∀ raw2 env2,
        wSend (wSend (WState.mk [] [] false false true (some (("c1").data)) 0)
            (("Hello").data)
            (WEnv.mk (ConvResp.ok (("c9").data)) PostResp.status429)) raw2 env2
          = wSend (WState.mk [] [] false false true (some (("c1").data)) 0)
              (("Hello").data)
              (WEnv.mk (ConvResp.ok (("c9").data)) PostResp.status429)) :=
  ⟨by decide,
    C6_sticky_rate_limit (WState.mk [] [] false false true (some (("c1").data)) 0)
      (("Hello").data) (WEnv.mk (ConvResp.ok (("c9").data)) PostResp.status429)
      rfl rfl (by decide) rfl (Or.inl rfl)⟩

/-- Whatever the message POST outcome, the post-conversation part of the
widget turn only appends to the two transcripts. -/
theorem wAfterConv_appends (s : WState) (post : PostResp) :
    ∃ r1 r2, (wAfterConv s post).recorded = s.recorded ++ r1 ∧
      (wAfterConv s post).shown = s.shown ++ r2 := by
  cases post with
  | netErr => exact ⟨[], [Msg.mk Role.system connErrNotice], by simp [wAfterConv], rfl⟩
  | status429 => exact ⟨[], [Msg.mk Role.system limitNotice], by simp [wAfterConv], rfl⟩
  | httpErr => exact ⟨[], [Msg.mk Role.system wrongNotice], by simp [wAfterConv], rfl⟩
  | ok chunks =>
    by_cases hfr : widgetFragments chunks = []
    · exact ⟨[], [], by simp [wAfterConv, hfr], by simp [wAfterConv, hfr]⟩
    · by_cases hco : (widgetFragments chunks).flatten = []
      · refine ⟨[], [Msg.mk Role.assistant (widgetFragments chunks).flatten], ?_, ?_⟩
        · simp only [wAfterConv]
          rw [if_neg hfr, if_pos hco]
          simp
        · simp only [wAfterConv]
          rw [if_neg hfr, if_pos hco]
      · refine ⟨[Msg.mk Role.assistant (widgetFragments chunks).flatten],
          [Msg.mk Role.assistant (widgetFragments chunks).flatten], ?_, ?_⟩ <;>
          · simp only [wAfterConv]
            rw [if_neg hfr, if_neg hco]
  | okThenErr chunks =>
    by_cases hfr : widgetFragments chunks = []
    · exact ⟨[], [Msg.mk Role.system connErrNotice],
        by simp [wAfterConv, hfr], by simp [wAfterConv, hfr]⟩
    · exact ⟨[], [Msg.mk Role.assistant (widgetFragments chunks).flatten,
                  Msg.mk Role.system connErrNotice],
        by simp [wAfterConv, hfr], by simp [wAfterConv, hfr]⟩

/-- In an idle widget state with non-blank input, the user Message is
appended right behind the previous transcript, whatever the environment
does afterwards. -/
theorem wSend_appends_user (s : WState) (raw : List Char) (env : WEnv)
    (hL : s.isLoading = false) (hR : s.isRateLimited = false)
    (ht : jsTrim raw ≠ []) :
    (∃ r1, (wSend s raw env).recorded
        = s.recorded ++ Msg.mk Role.user (jsTrim raw) :: r1) ∧
    ∃ r2, (wSend s raw env).shown
        = s.shown ++ Msg.mk Role.user (jsTrim raw) :: r2 := by
  rcases hs : s.conv with _ | id
  · rcases hc : env.convResp with _ | cid
    · constructor
      · exact ⟨[], by simp [wSend, ensureConversation, hL, hR, ht, hs, hc]⟩
      · exact ⟨[Msg.mk Role.system connErrNotice],
          by simp [wSend, ensureConversation, hL, hR, ht, hs, hc]⟩
    · have hw : wSend s raw env = wAfterConv
          (WState.mk (s.shown ++ [Msg.mk Role.user (jsTrim raw)])
            (s.recorded ++ [Msg.mk Role.user (jsTrim raw)])
            true false false (some cid) (s.convCalls + 1)) env.post := by
        simp [wSend, ensureConversation, hL, hR, ht, hs, hc]
      obtain ⟨r1, r2, h1, h2⟩ := wAfterConv_appends
        (WState.mk (s.shown ++ [Msg.mk Role.user (jsTrim raw)])
          (s.recorded ++ [Msg.mk Role.user (jsTrim raw)])
          true false false (some cid) (s.convCalls + 1)) env.post
      constructor
      · refine ⟨r1, ?_⟩
        rw [hw, h1]
        simp
      · refine ⟨r2, ?_⟩
        rw [hw, h2]
        simp
  · have hw : wSend s raw env = wAfterConv
        (WState.mk (s.shown ++ [Msg.mk Role.user (jsTrim raw)])
          (s.recorded ++ [Msg.mk Role.user (jsTrim raw)])
          true false false (some id) s.convCalls) env.post := by
      simp [wSend, ensureConversation, hL, hR, ht, hs]
    obtain ⟨r1, r2, h1, h2⟩ := wAfterConv_appends
      (WState.mk (s.shown ++ [Msg.mk Role.user (jsTrim raw)])
        (s.recorded ++ [Msg.mk Role.user (jsTrim raw)])
        true false false (some id) s.convCalls) env.post
    constructor
    · refine ⟨r1, ?_⟩
      rw [hw, h1]
      simp
    · refine ⟨r2, ?_⟩
      rw [hw, h2]
      simp

/-- Closed form of the chat page's for-await loop: everything in front of
the assistant placeholder survives untouched, the placeholder ends up
holding the accumulated content, and the accumulator ends as the
concatenation of all fragments. -/
theorem spaStreamLoop_closed (front : List Msg) (x : Msg) (acc : List Char)
    (fs : List (List Char)) :
    spaStreamLoop (front ++ [x]) acc fs
      = (front ++ [if fs = [] then x else Msg.mk Role.assistant (acc ++ fs.flatten)],
          acc ++ fs.flatten) := by
  induction fs generalizing x acc with
  | nil => simp [spaStreamLoop]
  | cons f fs ih =>
    rw [spaStreamLoop, List.dropLast_concat, ih]
    rcases fs with _ | ⟨f2, fs⟩ <;> simp

/-- A chat page turn appends exactly the user Message and one assistant
Message behind the previous transcript: the assistant holds the fragment
concatenation on success, or the error text on a thrown stream error. -/
theorem spaTurn_messages (s : SpaState) (text : List Char)
    (frags : List (List Char)) (err : Option (List Char)) :
    (spaTurn s text frags err).messages
      = s.messages ++ [Msg.mk Role.user text,
          Msg.mk Role.assistant
            (match err with
              | none => frags.flatten
              | some m => ("Error: ").data ++ m)] := by
  have hbase : s.messages ++ [Msg.mk Role.user text, Msg.mk Role.assistant []]
      = (s.messages ++ [Msg.mk Role.user text]) ++ [Msg.mk Role.assistant []] := by
    simp
  have hy := spaStreamLoop_closed (s.messages ++ [Msg.mk Role.user text])
    (Msg.mk Role.assistant []) [] frags
  cases err with
  | none =>
    simp only [spaTurn, hbase, hy]
    rcases frags with _ | ⟨f, fs⟩ <;> simp
  | some m =>
    simp only [spaTurn, hbase, hy]
    rw [List.dropLast_concat]
    simp

/-- Witness for C5 at a concrete cache and response sequence. -/
theorem C5_conversation_lifecycle_witness :
    (∀ r ∈ [ConvResp.ok (("c1").data), ConvResp.ok (("c2").data)],
        r ≠ ConvResp.fail) ∧
    (ensureConversation (some (("c0").data)) ConvResp.fail
        = (some (("c0").data), some (("c0").data), 0) ∧
      ensureConversation none (ConvResp.ok (("c0").data))
        = (some (("c0").data), some (("c0").data), 1) ∧
      ensureSeq none [ConvResp.ok (("c1").data), ConvResp.ok (("c2").data)]
        ≤ 1) :=
  ⟨by decide,
    C5_conversation_lifecycle (("c0").data) ConvResp.fail none
      [ConvResp.ok (("c1").data), ConvResp.ok (("c2").data)] (by decide)⟩

/-- C4 counterexample: api.stream does not implement the claimed frame
filter.  The line `data:X` begins with the field marker `data:` not followed
by a space, yet api.stream yields nothing for it; and for `data:  X` (which
does carry the mandatory space) the yielded fragment is the raw remainder
` X`, not the whitespace-trimmed remainder `X`. -/
theorem C4_counterexample :
    startsWithChars dataColon (("data:X").data) = true ∧
    sseFragments [("data:X\n").data] = [] ∧
    sseFragments [("data:  X\n").data] = [(" X").data] ∧
    jsTrim ((" X").data) = ("X").data := by
  decide

/-- C4 (amended): on a chunk free of sentinel payloads, the widget loop
yields exactly the fragments of the per-line rule `widgetLineFrag` (trim the
line, match `data:` with or without following space, trim the remainder),
and api.stream yields exactly the fragments of the per-line rule
`sseLineFrag` (match `data: ` with its mandatory space, keep the remainder
untrimmed); every non-matching line is skipped without error. -/
theorem C4_frame_filtering (lines lines2 : List (List Char))
    (h1 : ∀ l ∈ lines, widgetLineFrag l ≠ some doneTok)
    (h2 : ∀ l ∈ lines2, sseLineFrag l ≠ some doneTok) :
    widgetChunkFrags lines = lines.filterMap widgetLineFrag ∧
    sseChunkStep lines2 = (lines2.filterMap sseLineFrag, false) := by
  constructor
  · induction lines with
    | nil => rfl
    | cons l ls ih =>
      have hl := h1 l (List.mem_cons_self _ _)
      have ihr := ih (fun x hx => h1 x (List.mem_cons_of_mem _ hx))
      by_cases hp : startsWithChars dataColon (jsTrim l) = true
      · have hd : jsTrim ((jsTrim l).drop 5) ≠ doneTok := by
          intro hEq
          exact hl (by simp [widgetLineFrag, hp, hEq])
        simp [widgetChunkFrags, widgetLineFrag, hp, hd, ihr]
      · simp [widgetChunkFrags, widgetLineFrag, hp, ihr]
  · induction lines2 with
    | nil => rfl
    | cons l ls ih =>
      have hl := h2 l (List.mem_cons_self _ _)
      have ihr := ih (fun x hx => h2 x (List.mem_cons_of_mem _ hx))
      by_cases hp : startsWithChars dataColonSp l = true
      · have hd : l.drop 6 ≠ doneTok := by
          intro hEq
          exact hl (by simp [sseLineFrag, hp, hEq])
        simp [sseChunkStep, sseLineFrag, hp, hd, ihr]
      · simp [sseChunkStep, sseLineFrag, hp, ihr]

/-- Witness for C4 on a concrete sentinel-free chunk holding a payload line,
a comment line and a blank line. -/
theorem C4_frame_filtering_witness :
    (∀ l ∈ [("data: Hi").data, (": keep-alive").data, ([] : List Char)],
        widgetLineFrag l ≠ some doneTok) ∧
    (∀ l ∈ [("data: Hi").data, (": keep-alive").data, ([] : List Char)],
        sseLineFrag l ≠ some doneTok) ∧
    (widgetChunkFrags [("data: Hi").data, (": keep-alive").data, ([] : List Char)]
        = [("data: Hi").data, (": keep-alive").data,
            ([] : List Char)].filterMap widgetLineFrag ∧
      sseChunkStep [("data: Hi").data, (": keep-alive").data, ([] : List Char)]
        = ([("data: Hi").data, (": keep-alive").data,
            ([] : List Char)].filterMap sseLineFrag, false)) :=
  ⟨by decide, by decide,
    C4_frame_filtering
      [("data: Hi").data, (": keep-alive").data, ([] : List Char)]
      [("data: Hi").data, (": keep-alive").data, ([] : List Char)]
      (by decide) (by decide)⟩

/-- C8 counterexample: in the SPA chat page, with no active conversation and
a failing conversation-creation POST, sendMessage returns from the catch
block before appending anything: the transcript stays empty even though the
state was idle and the text non-empty, so the user Message is not appended
unconditionally before conversation creation. -/
theorem C8_counterexample :
    spaSend (SpaState.mk [] none false 0) (("Hello").data) ConvResp.fail [] none
      = SpaState.mk [] none false 1 := by
  decide

/-- C8 (amended): in the widget, an idle turn with non-blank text appends
the user Message right behind the previous transcript before conversation
creation and whatever the environment then does.  In the SPA chat page the
creation POST precedes the append: with no active conversation and a failing
creation nothing is appended, while once a conversation id is available
(cached or freshly created) the user Message is appended regardless of the
stream's outcome. -/
theorem C8_optimistic_user_append (s : WState) (raw : List Char) (env : WEnv)
    (hL : s.isLoading = false) (hR : s.isRateLimited = false)
    (ht : jsTrim raw ≠ [])
    (sp : SpaState) (input : List Char) (cr : ConvResp)
    (chunks : List (List Char)) (err : Option (List Char))
    (hstr : sp.streaming = false) (hti : jsTrim input ≠ []) :
    (∃ r1, (wSend s raw env).recorded
        = s.recorded ++ Msg.mk Role.user (jsTrim raw) :: r1) ∧
    (∃ r2, (wSend s raw env).shown
        = s.shown ++ Msg.mk Role.user (jsTrim raw) :: r2) ∧
    (sp.activeConv = none → cr = ConvResp.fail →
      (spaSend sp input cr chunks err).messages = sp.messages) ∧
    ((sp.activeConv = none → cr ≠ ConvResp.fail) →
      ∃ y, (spaSend sp input cr chunks err).messages
        = sp.messages ++ [Msg.mk Role.user (jsTrim input), y]) := by
  obtain ⟨hr, hs2⟩ := wSend_appends_user s raw env hL hR ht
  refine ⟨hr, hs2, ?_, ?_⟩
  · intro hact hcr
    simp [spaSend, hti, hstr, hact, hcr]
  · intro hok
    have key : ∀ s2 : SpaState, s2.messages = sp.messages →
        ∃ y, (spaTurn s2 (jsTrim input) (sseFragments chunks) err).messages
          = sp.messages ++ [Msg.mk Role.user (jsTrim input), y] := by
      intro s2 hmsg
      cases err with
      | none => exact ⟨_, by rw [spaTurn_messages, hmsg]⟩
      | some m => exact ⟨_, by rw [spaTurn_messages, hmsg]⟩
    rcases hact : sp.activeConv with _ | cid
    · rcases hcr : cr with _ | cid2
      · exact absurd hcr (hok hact)
      · subst hcr
        have hw : spaSend sp input (ConvResp.ok cid2) chunks err
            = spaTurn
                { sp with activeConv := some cid2,
                          convCalls := sp.convCalls + 1 }
                (jsTrim input) (sseFragments chunks) err := by
          simp [spaSend, hti, hstr, hact]
        rw [hw]
        exact key _ rfl
    · have hw : spaSend sp input cr chunks err
          = spaTurn sp (jsTrim input) (sseFragments chunks) err := by
        simp [spaSend, hti, hstr, hact]
      rw [hw]
      exact key _ rfl

/-- Witness for C8 at concrete states: an idle widget turn with a failing
environment, and an SPA turn with an active conversation and an erroring
stream. -/
theorem C8_optimistic_user_append_witness :
    jsTrim (("Hello").data) ≠ [] ∧ jsTrim ((" Yo ").data) ≠ [] ∧
    ((∃ r1, (wSend (WState.mk [] [] false false true none 0) (("Hello").data)
          (WEnv.mk ConvResp.fail PostResp.netErr)).recorded
        = [] ++ Msg.mk Role.user (jsTrim (("Hello").data)) :: r1) ∧
      (∃ r2, (wSend (WState.mk [] [] false false true none 0) (("Hello").data)
          (WEnv.mk ConvResp.fail PostResp.netErr)).shown
        = [] ++ Msg.mk Role.user (jsTrim (("Hello").data)) :: r2) ∧
      ((SpaState.mk [] (some (("c1").data)) false 0).activeConv = none →
        ConvResp.fail = ConvResp.fail →
        (spaSend (SpaState.mk [] (some (("c1").data)) false 0) ((" Yo ").data)
            ConvResp.fail [] (some (("boom").data))).messages
          = (SpaState.mk [] (some (("c1").data)) false 0).messages) ∧
      (((SpaState.mk [] (some (("c1").data)) false 0).activeConv = none →
          ConvResp.fail ≠ ConvResp.fail) →
        ∃ y, (spaSend (SpaState.mk [] (some (("c1").data)) false 0) ((" Yo ").data)
            ConvResp.fail [] (some (("boom").data))).messages
          = (SpaState.mk [] (some (("c1").data)) false 0).messages
              ++ [Msg.mk Role.user (jsTrim ((" Yo ").data)), y])) :=
  ⟨by decide, by decide,
    C8_optimistic_user_append (WState.mk [] [] false false true none 0)
      (("Hello").data) (WEnv.mk ConvResp.fail PostResp.netErr) rfl rfl (by decide)
      (SpaState.mk [] (some (("c1").data)) false 0) ((" Yo ").data)
      ConvResp.fail [] (some (("boom").data)) rfl (by decide)⟩

/-- Witness for C7 at the concrete endpoints of the SPA: the conversations
endpoint (non-auth) and the login endpoint (auth). -/
theorem C7_auth_expiry_witness :
    isAuthEndpoint (("/api/conversations").data) = false ∧
    isAuthEndpoint (("/api/auth/login").data) = true ∧
    request (("/api/conversations").data) 401 none (("Unauthorized").data)
        ([] : List Char)
      = (ReqEffects.mk true true,
          ReqValue.thrown ((none : Option (List Char)).getD (("Unauthorized").data))) ∧
    request (("/api/auth/login").data) 401 none (("Unauthorized").data)
        ([] : List Char)
      = (ReqEffects.mk false false,
          ReqValue.thrown ((none : Option (List Char)).getD (("Unauthorized").data))) :=
  ⟨by decide, by decide,
    (C7_auth_expiry (("/api/conversations").data) none (("Unauthorized").data)
        ([] : List Char) (("x").data)).1 (by decide),
    (C7_auth_expiry (("/api/auth/login").data) none (("Unauthorized").data)
        ([] : List Char) (("x").data)).2.1 (by decide)⟩

/-- Witness for C10 at a concrete 200 response with an empty and with a
non-empty body. -/
theorem C10_empty_body_resolves_undefined_witness :
    respOk 200 = true ∧
    ((request (("/api/documents").data) 200 none (("OK").data)
          ([] : List Char)).2 = ReqValue.undef ∧
      ((200 : Nat) ≠ 204 → ("a").data ≠ [] →
        (request (("/api/documents").data) 200 none (("OK").data)
            (("a").data)).2 = ReqValue.parsed (("a").data)) ∧
      (request (("/api/documents").data) 200 none (("OK").data)
          (("a").data)).1 = ReqEffects.mk false false) :=
  ⟨by decide,
    C10_empty_body_resolves_undefined (("/api/documents").data) 200 none
      (("OK").data) (("a").data) (by decide)⟩

end Rag
